import Mathlib

/-!
Verification of the RepoSaver frontend (Vue.js / Pinia) against its
specification.  The definitions below are shallow embeddings of the
JavaScript source files:

* `src/stores/mainStore.js`  — the Pinia store (initial state, event
  handlers registered in `init`, the `saveSettings` action);
* `Settings.vue`             — the settings view (watchers, the
  `onMaxGenerationsInput` clamping handler);
* `SaveList.vue`             — the list view (`formatDate`, the shared
  memo debounce timer, the manual-backup button's disabled binding);
* `NotificationOverlay.vue`  — the notification overlay's
  `show-notification` listener;

plus, where the claim concerns the Rust backup engine that is not part
of the repository sources, definitions modelled from the spec (each
such definition says so in its doc comment).
-/

namespace RepoSaver

/-! ### JavaScript value helpers

JavaScript `a || b` picks `b` exactly when `a` is falsy.  For the values
the store deals with: an absent field (`undefined`/`null`) is falsy, the
empty string is the only falsy string, and `0` is the only falsy integer.
We model a possibly-absent value as an `Option`.
-/

/-- JS `v || dflt` for a possibly-absent string value: absent and `""` are
falsy. -/
def jsStrOr (v : Option String) (dflt : String) : String :=
  match v with
  | none => dflt
  | some s => if s = "" then dflt else s

/-- JS `v || dflt` for a possibly-absent integer value: absent and `0` are
falsy. -/
def jsNumOr (v : Option Int) (dflt : Int) : Int :=
  match v with
  | none => dflt
  | some n => if n = 0 then dflt else n

/-! ### The Pinia store (`src/stores/mainStore.js`) -/

/-- The `Settings` document (`docs/api_interface.md` and the store's
`state.settings`). -/
structure Settings where
  repo_save_path : String
  theme : String
  max_generations : Int
  deriving Repr, DecidableEq

/-- One backup entry of a folder state (`BackupItem` in
`docs/api_interface.md`; `{ timestamp }` in the store's comment). -/
structure BackupItem where
  timestamp : String
  deriving Repr, DecidableEq

/-- One category item of the published backups state
(`// [{ name, memo, backups: [...], source_exists }]` in the store). -/
structure FolderState where
  name : String
  memo : String
  backups : List BackupItem
  source_exists : Bool
  deriving Repr, DecidableEq

/-- The Pinia store's reactive state (`state: () => ({ ... })`). -/
structure StoreState where
  settings : Settings
  items : List FolderState
  isConnected : Bool
  deriving Repr, DecidableEq

/-- The store's initial state: `settings: { repo_save_path: '', theme:
'system', max_generations: 10 }, items: [], isConnected: false`. -/
def initialStoreState : StoreState :=
  { settings := { repo_save_path := "", theme := "system", max_generations := 10 },
    items := [],
    isConnected := false }

/-- The `settings-state` listener registered in `init`:
`this.settings = event.payload`. -/
def onSettingsStateEvent (st : StoreState) (payload : Settings) : StoreState :=
  { st with settings := payload }

/-- The `backups-state` listener registered in `init`:
`this.items = event.payload`. -/
def onBackupsStateEvent (st : StoreState) (payload : List FolderState) : StoreState :=
  { st with items := payload }

/-- The argument object passed to `invoke('save_settings', {...})`. -/
structure SaveSettingsArgs where
  repoPath : String
  maxGenerations : Int
  theme : String
  deriving Repr, DecidableEq

/-- The store action `saveSettings(newPath, maxGenerations, theme)`; it
builds the `save_settings` invocation arguments
`{ repoPath: newPath,
   maxGenerations: maxGenerations || this.settings.max_generations || 10,
   theme: theme || this.settings.theme || 'system' }`.
The two value arguments are modelled as possibly-absent
(`undefined`/`null` callers). -/
def saveSettings (st : StoreState) (newPath : String)
    (maxGenerations : Option Int) (theme : Option String) : SaveSettingsArgs :=
  { repoPath := newPath,
    maxGenerations := jsNumOr maxGenerations (jsNumOr (some st.settings.max_generations) 10),
    theme := jsStrOr theme (jsStrOr (some st.settings.theme) "system") }

/-! ### The settings view (`Settings.vue`) -/

/-- The `Settings.vue` watcher on `store.settings.max_generations`:
`maxGenerations.value = newVal || 10`. -/
def watchMaxGenerations (newVal : Option Int) : Int :=
  jsNumOr newVal 10

/-- The `Settings.vue` watcher on `store.settings.theme`:
`theme.value = newVal || 'system'`. -/
def watchTheme (newVal : Option String) : String :=
  jsStrOr newVal "system"

/-- The clamping part of `onMaxGenerationsInput` in `Settings.vue`:
`if (maxGenerations.value < 1) maxGenerations.value = 1;
 if (maxGenerations.value > 100) maxGenerations.value = 100`.
The returned value is the one the debounced `store.saveSettings` call then
uses; no error path exists in the handler. -/
def onMaxGenerationsInput (v : Int) : Int :=
  let v1 := if v < 1 then 1 else v
  if v1 > 100 then 100 else v1

/-! ### The list view (`SaveList.vue`) -/

/-- The `:disabled` binding of the manual-backup (今すぐバックアップ)
button in `SaveList.vue`: `:disabled="!item.source_exists"`. -/
def manualBackupDisabled (item : FolderState) : Bool :=
  !item.source_exists

/-! ### `formatDate` (`SaveList.vue`) and its dayjs model

`SaveList.vue` renders every timestamp through
`formatDate = (tsStr) => dayjs(tsStr, "YYYYMMDD_HHmmss").format("YYYY-MM-DD HH:mm:ss")`,
with the `customParseFormat` dayjs plugin installed in `main.js`.
For a string matching the token pattern, dayjs extracts the six numeric
fields positionally (4 digits year, 2 month, 2 day, a literal `_`,
2 hour, 2 minute, 2 second), builds a JS `Date` from them (which
normalises out-of-range fields by carrying), and `format` re-emits the
date's fields zero-padded with the requested separators.  Strings that do
not match the token pattern fall back to native `Date` string parsing,
which this model does not cover (`parseTs` returns `none` there); the
claims only concern well-formed timestamp identifiers. -/

/-- The six numeric fields of a parsed timestamp. -/
structure DateTimeRec where
  year : Nat
  month : Nat
  day : Nat
  hour : Nat
  minute : Nat
  second : Nat
  deriving Repr, DecidableEq

/-- The decimal digit character for `n < 10`. -/
def digitChar (n : Nat) : Char :=
  Char.ofNat (48 + n)

/-- The numeric value of a decimal digit character. -/
def charVal (c : Char) : Nat :=
  c.toNat - 48

/-- Positional extraction of the six fields from a
`YYYYMMDD_HHmmss`-shaped string, as dayjs's `customParseFormat` does;
`none` when the string does not match the token pattern. -/
def parseTs (s : String) : Option DateTimeRec :=
  match s.data with
  | [y1, y2, y3, y4, mo1, mo2, d1, d2, sep, h1, h2, mi1, mi2, sec1, sec2] =>
    if sep == '_' && y1.isDigit && y2.isDigit && y3.isDigit && y4.isDigit &&
        mo1.isDigit && mo2.isDigit && d1.isDigit && d2.isDigit &&
        h1.isDigit && h2.isDigit && mi1.isDigit && mi2.isDigit &&
        sec1.isDigit && sec2.isDigit then
      some { year := 1000 * charVal y1 + 100 * charVal y2 + 10 * charVal y3 + charVal y4,
             month := 10 * charVal mo1 + charVal mo2,
             day := 10 * charVal d1 + charVal d2,
             hour := 10 * charVal h1 + charVal h2,
             minute := 10 * charVal mi1 + charVal mi2,
             second := 10 * charVal sec1 + charVal sec2 }
    else none
  | _ => none

/-- Gregorian leap-year test, as JS `Date` uses. -/
def isLeapYear (y : Nat) : Bool :=
  y % 4 == 0 && (y % 100 != 0 || y % 400 == 0)

/-- Days in a month (month `1`–`12`), as JS `Date` uses. -/
def daysInMonth (y m : Nat) : Nat :=
  if m == 2 then (if isLeapYear y then 29 else 28)
  else if m == 4 || m == 6 || m == 9 || m == 11 then 30
  else 31

/-- Day-overflow carry of JS `Date` normalisation: while the day exceeds
the month's length, subtract it and advance the month (rolling the year).
Fuel-bounded; the bound is never reached for the two-digit day and hour
fields a parsed timestamp can carry in. -/
def normDays : Nat → Nat → Nat → Nat → Nat × Nat × Nat
  | y, m, d, 0 => (y, m, d)
  | y, m, d, fuel + 1 =>
    if d ≤ daysInMonth y m then (y, m, d)
    else if m = 12 then normDays (y + 1) 1 (d - daysInMonth y m) fuel
    else normDays y (m + 1) (d - daysInMonth y m) fuel

/-- JS `Date`-style normalisation of the six fields (`new Date(y, month-1,
d, h, mi, s)` carries out-of-range fields upward).  On an in-range date it
is the identity. -/
def normalize (dt : DateTimeRec) : DateTimeRec :=
  let second := dt.second % 60
  let minuteT := dt.minute + dt.second / 60
  let minute := minuteT % 60
  let hourT := dt.hour + minuteT / 60
  let hour := hourT % 24
  let dayT := dt.day + hourT / 24
  let yearT := dt.year + (dt.month - 1) / 12
  let monthT := (dt.month - 1) % 12 + 1
  let ymd := normDays yearT monthT dayT 8
  { year := ymd.1, month := ymd.2.1, day := ymd.2.2,
    hour := hour, minute := minute, second := second }

/-- Zero-padded two-digit rendering of a field, as dayjs `MM`/`DD`/`HH`/
`mm`/`ss` tokens emit for an in-range value. -/
def pad2 (n : Nat) : String :=
  String.mk [digitChar (n / 10 % 10), digitChar (n % 10)]

/-- Zero-padded four-digit rendering of the year, as the dayjs `YYYY`
token emits for a four-digit year. -/
def pad4 (n : Nat) : String :=
  String.mk [digitChar (n / 1000 % 10), digitChar (n / 100 % 10),
             digitChar (n / 10 % 10), digitChar (n % 10)]

/-- The dayjs `format("YYYY-MM-DD HH:mm:ss")` output for a (normalised)
date. -/
def formatDisplay (dt : DateTimeRec) : String :=
  pad4 dt.year ++ "-" ++ pad2 dt.month ++ "-" ++ pad2 dt.day ++ " " ++
    pad2 dt.hour ++ ":" ++ pad2 dt.minute ++ ":" ++ pad2 dt.second

/-- `formatDate` of `SaveList.vue`:
`dayjs(tsStr, "YYYYMMDD_HHmmss").format("YYYY-MM-DD HH:mm:ss")`, as
parse → `Date` normalisation → format; `none` stands for the unmodelled
fallback on non-conforming input. -/
def formatDate (s : String) : Option String :=
  (parseTs s).map (fun dt => formatDisplay (normalize dt))

/-- The timestamp identifier string `YYYYMMDD_HHmmss` carrying the given
six fields. -/
def tsString (dt : DateTimeRec) : String :=
  pad4 dt.year ++ pad2 dt.month ++ pad2 dt.day ++ "_" ++
    pad2 dt.hour ++ pad2 dt.minute ++ pad2 dt.second

/-- The six fields form a real calendar date-time with a four-digit
year — true of every identifier the backend's second-resolution clock
produces. -/
def validDateTime (dt : DateTimeRec) : Prop :=
  dt.year ≤ 9999 ∧ 1 ≤ dt.month ∧ dt.month ≤ 12 ∧
    1 ≤ dt.day ∧ dt.day ≤ daysInMonth dt.year dt.month ∧
    dt.hour ≤ 23 ∧ dt.minute ≤ 59 ∧ dt.second ≤ 59

instance (dt : DateTimeRec) : Decidable (validDateTime dt) := by
  unfold validDateTime
  infer_instance

/-! ### The shared memo debounce timer (`SaveList.vue`)

`SaveList.vue` keeps a single module-level `memoTimer`.  `onMemoInput`
does `clearTimeout(memoTimer)` and then `setTimeout(..., 1000)` with a
callback saving that folder's memo.  We model the timer as an optional
pending save `(folderName, deadline)`; `clearTimeout` discards it, and a
`setTimeout` of 1000 ms at time `now` arms a save at `now + 1000`.  The
JS event loop's timer expiry is modelled by an explicit `fire` event:
the callback runs only when the armed timer is still the current one and
its deadline has passed. -/

/-- The state of `SaveList.vue`'s single `memoTimer`. -/
structure MemoTimerState where
  pending : Option (String × Nat)
  deriving Repr, DecidableEq

/-- `onMemoInput(folderName)` at time `now`: clear the (one, shared) timer
and arm a save of `folderName`'s memo 1000 ms from now. -/
def onMemoInput (_st : MemoTimerState) (folderName : String) (now : Nat) :
    MemoTimerState :=
  { pending := some (folderName, now + 1000) }

/-- Timer expiry at time `now`: if a save is armed and its deadline has
passed, run the callback (`store.saveMemo(folderName, ...)`) and clear the
timer; otherwise nothing happens.  Returns the new state and the folder
whose memo got saved, if any. -/
def fireMemoTimer (st : MemoTimerState) (now : Nat) :
    MemoTimerState × Option String :=
  match st.pending with
  | none => (st, none)
  | some (f, deadline) =>
    if deadline ≤ now then ({ pending := none }, some f)
    else (st, none)

/-- An externally observable event of the memo-debounce machinery: a memo
keystroke in some category, or a timer-expiry check. -/
inductive MemoEvent where
  | input (folderName : String) (time : Nat)
  | fire (time : Nat)
  deriving Repr, DecidableEq

/-- Run a sequence of memo events, collecting the saves that were
performed, in order. -/
def runMemo (st : MemoTimerState) : List MemoEvent → MemoTimerState × List String
  | [] => (st, [])
  | MemoEvent.input f t :: rest => runMemo (onMemoInput st f t) rest
  | MemoEvent.fire t :: rest =>
    match fireMemoTimer st t with
    | (st2, none) => runMemo st2 rest
    | (st2, some f) =>
      let r := runMemo st2 rest
      (r.1, f :: r.2)

/-! ### The notification overlay (`NotificationOverlay.vue`) -/

/-- The payload of a `show-notification` event.  The severity field
(`payload.type`) may be absent, which we model as `none`. -/
structure NotificationPayload where
  title : String
  body : String
  type : Option String
  deriving Repr, DecidableEq

/-- The overlay's reactive state: the three refs the template renders
(`title`, `message`) and the severity ref (`type`), plus `visible`. -/
structure OverlayState where
  title : String
  message : String
  type : String
  visible : Bool
  deriving Repr, DecidableEq

/-- The `show-notification` listener in `NotificationOverlay.vue`:
`title.value = payload.title; message.value = payload.body;
 type.value = payload.type || 'info'; visible.value = true`.
The template then renders `{{ title }}` as the card's title line and
`{{ message }}` as its message line. -/
def onShowNotification (st : OverlayState) (payload : NotificationPayload) :
    OverlayState :=
  { st with
    title := payload.title,
    message := payload.body,
    type := jsStrOr payload.type "info",
    visible := true }

/-! ### The backup engine (modelled from the spec)

The Rust backend (BackupSystem: Generation Store, Restore Coordinator,
watcher, scheduler) is not among the repository's source files — only its
command/event interface (`docs/api_interface.md`) and its Vue callers are.
The definitions in this section are therefore modelled from the spec's
§3–§4.4, as their doc comments state. -/

/-- Modelled from the spec: a backend `Category` — the Rust Generation
Store's per-category record is missing from the sources.  §3: "owns an
ordered list of Snapshot records (newest first)", with an existence flag
`source_exists` for the live subfolder. -/
structure EngineCategory where
  name : String
  snapshots : List String
  source_exists : Bool
  deriving Repr, DecidableEq

/-- Modelled from the spec: `prune(category, limit)` of the Generation
Store (missing from the sources).  §4.3: "deletes oldest-first down to the
new limit" — with the list newest first, the newest `limit` snapshots are
kept and the tail (the oldest) is removed. -/
def prune (snapshots : List String) (limit : Nat) : List String :=
  snapshots.take limit

/-- Modelled from the spec: `create(category, is_auto)` of the Generation
Store (missing from the sources).  §4.3: fails with `SourceMissing` if the
live subfolder does not exist; otherwise the new snapshot (named by the
current timestamp) is added and then the oldest snapshots beyond
`max_generations` are pruned, as part of the same operation. -/
def create (cat : EngineCategory) (ts : String) (maxGenerations : Nat) :
    Except String EngineCategory :=
  if cat.source_exists then
    Except.ok { cat with snapshots := prune (ts :: cat.snapshots) maxGenerations }
  else
    Except.error "SourceMissing"

/-- Modelled from the spec: the Settings Coordinator's reaction to a
retention-limit decrease (missing from the sources).  §4.5: "If
`maxGenerations` decreased, invokes `prune` on every existing Category",
immediately. -/
def applyRetentionDecrease (cats : List EngineCategory) (newLimit : Nat) :
    List EngineCategory :=
  cats.map (fun c => { c with snapshots := prune c.snapshots newLimit })

/-- Error kinds of the restore path, from the spec's §7. -/
inductive RestoreError where
  | NotFound
  | SourceLocked
  | PartialFailure
  deriving Repr, DecidableEq

/-- Modelled from the spec: the filesystem neighbourhood a restore acts
on (missing from the sources) — the live subfolder's contents (absent when
the folder is gone) and the per-category archive mapping each snapshot
timestamp to the copied tree's contents. -/
structure RestoreEnv where
  live : Option (List (String × String))
  archive : List (String × List (String × String))
  deriving Repr, DecidableEq

/-- Modelled from the spec: `restore(category, timestamp)` of the Restore
Coordinator (missing from the sources).  §4.4: fails with `NotFound` if
the snapshot does not exist; otherwise it first copies the snapshot's tree
into a staging location (outcome `stagedCopyOk`) — if that step fails, the
operation fails (`SourceLocked`) before anything touches the live folder —
and only then performs the destructive swap (outcome `swapOk`), whose
partial failure leaves the category degraded (`PartialFailure`, live
contents no longer intact).  Returns the operation outcome and the
resulting environment. -/
def restoreBackup (env : RestoreEnv) (timestamp : String)
    (stagedCopyOk : Bool) (swapOk : Bool) :
    Except RestoreError Unit × RestoreEnv :=
  match env.archive.find? (fun p => p.1 == timestamp) with
  | none => (Except.error RestoreError.NotFound, env)
  | some (_, content) =>
    if stagedCopyOk then
      if swapOk then (Except.ok (), { env with live := some content })
      else (Except.error RestoreError.PartialFailure, { env with live := none })
    else
      (Except.error RestoreError.SourceLocked, env)

/-! ## Supporting lemmas -/

/-- A digit character round-trips through its numeric value. -/
lemma charVal_digitChar_lt (k : Nat) (h : k < 10) : charVal (digitChar k) = k := by
  interval_cases k <;> rfl

/-- Digit characters pass `Char.isDigit`. -/
lemma isDigit_digitChar_lt (k : Nat) (h : k < 10) : (digitChar k).isDigit = true := by
  interval_cases k <;> rfl

/-- Unconditional form of `charVal_digitChar_lt` for `k % 10`. -/
lemma charVal_digitChar_mod (k : Nat) : charVal (digitChar (k % 10)) = k % 10 :=
  charVal_digitChar_lt _ (Nat.mod_lt _ (by norm_num))

/-- Unconditional form of `isDigit_digitChar_lt` for `k % 10`. -/
lemma isDigit_digitChar_mod (k : Nat) : (digitChar (k % 10)).isDigit = true :=
  isDigit_digitChar_lt _ (Nat.mod_lt _ (by norm_num))

/-- The character list underlying a built timestamp string. -/
lemma tsString_data (dt : DateTimeRec) :
    (tsString dt).data =
      [digitChar (dt.year / 1000 % 10), digitChar (dt.year / 100 % 10),
       digitChar (dt.year / 10 % 10), digitChar (dt.year % 10),
       digitChar (dt.month / 10 % 10), digitChar (dt.month % 10),
       digitChar (dt.day / 10 % 10), digitChar (dt.day % 10), '_',
       digitChar (dt.hour / 10 % 10), digitChar (dt.hour % 10),
       digitChar (dt.minute / 10 % 10), digitChar (dt.minute % 10),
       digitChar (dt.second / 10 % 10), digitChar (dt.second % 10)] := by
  simp [tsString, pad4, pad2, String.data_append]

/-- Parsing a built timestamp string recovers the six fields, for a valid
date-time. -/
lemma parseTs_tsString (dt : DateTimeRec) (h : validDateTime dt) :
    parseTs (tsString dt) = some dt := by
  obtain ⟨hy, hm1, hm2, hd1, hd2, hh, hmi, hs⟩ := h
  unfold parseTs
  rw [tsString_data]
  simp only [isDigit_digitChar_mod, charVal_digitChar_mod, Bool.and_true, Bool.true_and,
    beq_self_eq_true, if_true]
  congr 1
  have hmo : dt.month < 100 := by omega
  have hda : dt.day ≤ 31 := by
    have : daysInMonth dt.year dt.month ≤ 31 := by
      unfold daysInMonth
      split <;> [split <;> omega; split <;> omega]
    omega
  cases dt
  simp_all
  refine ⟨?_, ?_, ?_, ?_, ?_, ?_⟩ <;> omega

/-- The day-carry loop is inert once the day fits in the month. -/
lemma normDays_of_le (y m d fuel : Nat) (h : d ≤ daysInMonth y m) :
    normDays y m d (fuel + 1) = (y, m, d) := by
  unfold normDays
  simp [h]

/-- JS `Date` normalisation is the identity on a valid date-time. -/
lemma normalize_valid (dt : DateTimeRec) (h : validDateTime dt) : normalize dt = dt := by
  obtain ⟨hy, hm1, hm2, hd1, hd2, hh, hmi, hs⟩ := h
  unfold normalize
  have e1 : dt.second % 60 = dt.second := Nat.mod_eq_of_lt (by omega)
  have e2 : dt.second / 60 = 0 := Nat.div_eq_of_lt (by omega)
  have e3 : dt.minute % 60 = dt.minute := Nat.mod_eq_of_lt (by omega)
  have e4 : dt.minute / 60 = 0 := Nat.div_eq_of_lt (by omega)
  have e5 : dt.hour % 24 = dt.hour := Nat.mod_eq_of_lt (by omega)
  have e6 : dt.hour / 24 = 0 := Nat.div_eq_of_lt (by omega)
  have e7 : (dt.month - 1) / 12 = 0 := Nat.div_eq_of_lt (by omega)
  have e8 : (dt.month - 1) % 12 + 1 = dt.month := by omega
  simp only [e1, e2, e3, e4, e5, e6, e7, Nat.add_zero, e8]
  rw [show (8 : Nat) = 7 + 1 from rfl, normDays_of_le _ _ _ _ hd2]

/-- Running a non-empty burst of memo inputs and then one timer expiry at
or past the last input's deadline saves exactly the last-edited folder's
memo, whatever the starting state. -/
lemma runMemo_inputs_fire (l : List (String × Nat)) (st : MemoTimerState)
    (f : String) (tf : Nat) (hlast : l.getLast? = some (f, tf))
    (T : Nat) (hT : tf + 1000 ≤ T) :
    runMemo st (l.map (fun p => MemoEvent.input p.1 p.2) ++ [MemoEvent.fire T]) =
      ({ pending := none }, [f]) := by
  induction l generalizing st with
  | nil => simp at hlast
  | cons x rest ih =>
    cases rest with
    | nil =>
      obtain ⟨rfl, rfl⟩ : x.1 = f ∧ x.2 = tf := by
        have : x = (f, tf) := by simpa using hlast
        simp [this]
      simp [runMemo, onMemoInput, fireMemoTimer, hT]
    | cons y rest2 =>
      have hlast2 : (y :: rest2).getLast? = some (f, tf) := by
        simpa [List.getLast?_cons_cons] using hlast
      simpa [runMemo] using ih (onMemoInput st x.1 x.2) hlast2

/-! ## The claims -/

/-- Claim C1 (spec-modelled): after any successful `create` and after any
retention-limit decrease, every category retains at most `max_generations`
snapshots, and the snapshots removed are exactly an oldest-first tail of
the previous (newest-first) list — the bound already holds on the state
the operation itself returns, never lazily later. -/
theorem retention_invariant :
    (∀ (cat : EngineCategory) (ts : String) (maxGenerations : Nat)
        (cat2 : EngineCategory),
      create cat ts maxGenerations = Except.ok cat2 →
      cat2.snapshots.length ≤ maxGenerations ∧
        ∃ removed, ts :: cat.snapshots = cat2.snapshots ++ removed) ∧
    (∀ (cats : List EngineCategory) (newLimit : Nat) (c : EngineCategory),
      c ∈ applyRetentionDecrease cats newLimit →
      c.snapshots.length ≤ newLimit ∧
        ∃ orig ∈ cats, c.name = orig.name ∧
          ∃ removed, orig.snapshots = c.snapshots ++ removed) := by
  constructor
  · intro cat ts maxGenerations cat2 h
    unfold create at h
    split at h
    · injection h with h2
      subst h2
      refine ⟨List.length_take_le _ _, (ts :: cat.snapshots).drop maxGenerations, ?_⟩
      exact (List.take_append_drop _ _).symm
    · exact Except.noConfusion h
  · intro cats newLimit c hc
    unfold applyRetentionDecrease at hc
    obtain ⟨orig, horig, rfl⟩ := List.mem_map.mp hc
    refine ⟨List.length_take_le _ _, orig, horig, rfl, orig.snapshots.drop newLimit, ?_⟩
    exact (List.take_append_drop _ _).symm

/-- Witness for C1: with `max_generations = 3`, a fourth `create` on a
category holding three snapshots retains exactly three, dropping the
oldest; and a decrease to limit 2 prunes a five-snapshot category to its
two newest. -/
theorem retention_invariant_witness :
    create ⟨"SaveA", ["t3", "t2", "t1"], true⟩ "t4" 3 =
        Except.ok ⟨"SaveA", ["t4", "t3", "t2"], true⟩ ∧
    (["t4", "t3", "t2"] : List String).length ≤ 3 ∧
    (∃ removed, ["t4", "t3", "t2", "t1"] = ["t4", "t3", "t2"] ++ removed) ∧
    applyRetentionDecrease [⟨"SaveB", ["t5", "t4", "t3", "t2", "t1"], true⟩] 2 =
        [⟨"SaveB", ["t5", "t4"], true⟩] ∧
    (["t5", "t4"] : List String).length ≤ 2 := by
  have h : create (⟨"SaveA", ["t3", "t2", "t1"], true⟩ : EngineCategory) "t4" 3 =
      Except.ok ⟨"SaveA", ["t4", "t3", "t2"], true⟩ := by rfl
  have h1 := retention_invariant.1 _ "t4" 3 _ h
  have hm : (⟨"SaveB", ["t5", "t4"], true⟩ : EngineCategory) ∈
      applyRetentionDecrease [⟨"SaveB", ["t5", "t4", "t3", "t2", "t1"], true⟩] 2 := by
    decide
  have h2 := retention_invariant.2 _ 2 _ hm
  exact ⟨h, h1.1, h1.2, by decide, h2.1⟩

/-- Claim C2: the `onMaxGenerationsInput` handler corrects every entered
value into `[1, 100]` before the debounced save — below 1 becomes 1, above
100 becomes 100, in-range values pass through — and, being a total
correction with no error path, never rejects input. -/
theorem onMaxGenerationsInput_clamps (v : Int) :
    1 ≤ onMaxGenerationsInput v ∧ onMaxGenerationsInput v ≤ 100 ∧
    (v < 1 → onMaxGenerationsInput v = 1) ∧
    (100 < v → onMaxGenerationsInput v = 100) ∧
    (1 ≤ v → v ≤ 100 → onMaxGenerationsInput v = v) := by
  unfold onMaxGenerationsInput
  dsimp only
  split_ifs <;> omega

/-- Witness for C2: `-5` is corrected to `1`, `250` to `100`, and `42`
kept. -/
theorem onMaxGenerationsInput_clamps_witness :
    onMaxGenerationsInput (-5) = 1 ∧ onMaxGenerationsInput 250 = 100 ∧
    onMaxGenerationsInput 42 = 42 :=
  ⟨(onMaxGenerationsInput_clamps (-5)).2.2.1 (by decide),
   (onMaxGenerationsInput_clamps 250).2.2.2.1 (by decide),
   (onMaxGenerationsInput_clamps 42).2.2.2.2 (by decide) (by decide)⟩

/-- Claim C3 (spec-modelled): when the staged-copy step of
`restore(category, timestamp)` fails, the operation returns the
`SourceLocked` failure and the environment — the live subfolder's contents
in particular — is exactly what it was before the call. -/
theorem restore_staged_copy_fails_clean (env : RestoreEnv) (ts : String)
    (content : String × List (String × String)) (swapOk : Bool)
    (h : env.archive.find? (fun p => p.1 == ts) = some content) :
    restoreBackup env ts false swapOk =
      (Except.error RestoreError.SourceLocked, env) := by
  unfold restoreBackup
  rw [h]
  simp

/-- Witness for C3: restoring an existing snapshot with a failing staged
copy reports `SourceLocked` and leaves the live contents untouched. -/
theorem restore_staged_copy_fails_clean_witness :
    restoreBackup
        ⟨some [("save.dat", "live")], [("20240101_000000", [("save.dat", "old")])]⟩
        "20240101_000000" false true =
      (Except.error RestoreError.SourceLocked,
        ⟨some [("save.dat", "live")], [("20240101_000000", [("save.dat", "old")])]⟩) :=
  restore_staged_copy_fails_clean _ _ ("20240101_000000", [("save.dat", "old")]) true
    (by decide)

/-- Claim C4: the `settings-state` and `backups-state` listeners replace
the whole respective document with the event payload — the resulting
document equals the payload, is independent of the prior store state, and
a later broadcast fully supersedes any earlier one. -/
theorem state_event_full_replace :
    (∀ (st : StoreState) (p : Settings), (onSettingsStateEvent st p).settings = p) ∧
    (∀ (st : StoreState) (p : List FolderState), (onBackupsStateEvent st p).items = p) ∧
    (∀ (st st2 : StoreState) (p : Settings),
      (onSettingsStateEvent st p).settings = (onSettingsStateEvent st2 p).settings) ∧
    (∀ (st st2 : StoreState) (p : List FolderState),
      (onBackupsStateEvent st p).items = (onBackupsStateEvent st2 p).items) ∧
    (∀ (st : StoreState) (p1 p2 : Settings),
      (onSettingsStateEvent (onSettingsStateEvent st p1) p2).settings = p2) ∧
    (∀ (st : StoreState) (p1 p2 : List FolderState),
      (onBackupsStateEvent (onBackupsStateEvent st p1) p2).items = p2) :=
  ⟨fun _ _ => rfl, fun _ _ => rfl, fun _ _ _ => rfl, fun _ _ _ => rfl,
   fun _ _ _ => rfl, fun _ _ _ => rfl⟩

/-- Claim C5: the manual-backup button is disabled for every published
category item whose `source_exists` flag is false. -/
theorem manual_backup_disabled_of_source_missing (item : FolderState)
    (h : item.source_exists = false) : manualBackupDisabled item = true := by
  simp [manualBackupDisabled, h]

/-- Witness for C5: a category whose live folder is gone has its
manual-backup control disabled. -/
theorem manual_backup_disabled_of_source_missing_witness :
    manualBackupDisabled ⟨"SaveD", "", [], false⟩ = true :=
  manual_backup_disabled_of_source_missing ⟨"SaveD", "", [], false⟩ rfl

/-- Claim C6: for every `show-notification` event the overlay handles, the
rendered title is `payload.title`, the rendered message is `payload.body`,
and the stored severity is `payload.type`, with `info` substituted when
the severity field is absent. -/
theorem show_notification_renders_payload (st : OverlayState)
    (p : NotificationPayload) :
    (onShowNotification st p).title = p.title ∧
    (onShowNotification st p).message = p.body ∧
    (p.type = none → (onShowNotification st p).type = "info") ∧
    (∀ s, p.type = some s → s ≠ "" → (onShowNotification st p).type = s) := by
  refine ⟨rfl, rfl, ?_, ?_⟩
  · intro h
    simp [onShowNotification, jsStrOr, h]
  · intro s hs hne
    simp [onShowNotification, jsStrOr, hs, hne]

/-- Witness for C6: an event with no severity field renders its title and
body and falls back to the `info` severity. -/
theorem show_notification_renders_payload_witness :
    (onShowNotification ⟨"", "", "", false⟩ ⟨"バックアップ完了", "done", none⟩).title =
        "バックアップ完了" ∧
    (onShowNotification ⟨"", "", "", false⟩ ⟨"バックアップ完了", "done", none⟩).message =
        "done" ∧
    (onShowNotification ⟨"", "", "", false⟩ ⟨"バックアップ完了", "done", none⟩).type =
        "info" := by
  have h := show_notification_renders_payload ⟨"", "", "", false⟩
    ⟨"バックアップ完了", "done", none⟩
  exact ⟨h.1, h.2.1, h.2.2.1 rfl⟩

/-- Claim C7: for every well-formed `YYYYMMDD_HHmmss` timestamp
identifier, `formatDate` returns the same instant rendered
`YYYY-MM-DD HH:mm:ss`, field by field in order. -/
theorem formatDate_preserves_fields (dt : DateTimeRec) (h : validDateTime dt) :
    formatDate (tsString dt) = some (formatDisplay dt) := by
  unfold formatDate
  rw [parseTs_tsString dt h, Option.map_some', normalize_valid dt h]

/-- Witness for C7: `"20240131_235959"` formats to
`"2024-01-31 23:59:59"`. -/
theorem formatDate_preserves_fields_witness :
    validDateTime ⟨2024, 1, 31, 23, 59, 59⟩ ∧
    tsString ⟨2024, 1, 31, 23, 59, 59⟩ = "20240131_235959" ∧
    formatDisplay ⟨2024, 1, 31, 23, 59, 59⟩ = "2024-01-31 23:59:59" ∧
    formatDate "20240131_235959" = some "2024-01-31 23:59:59" := by
  have h := formatDate_preserves_fields ⟨2024, 1, 31, 23, 59, 59⟩ (by decide)
  have e1 : tsString ⟨2024, 1, 31, 23, 59, 59⟩ = "20240131_235959" := by decide
  have e2 : formatDisplay ⟨2024, 1, 31, 23, 59, 59⟩ = "2024-01-31 23:59:59" := by decide
  rw [e1, e2] at h
  exact ⟨by decide, e1, e2, h⟩

/-- Claim C8: before any persisted settings arrive, the store's settings
are exactly the defaults (`max_generations = 10`, `theme = "system"`,
empty `repo_save_path`); and the settings view's watchers substitute `10`
and `"system"` when the stored value is absent. -/
theorem startup_defaults :
    initialStoreState.settings.max_generations = 10 ∧
    initialStoreState.settings.theme = "system" ∧
    initialStoreState.settings.repo_save_path = "" ∧
    watchMaxGenerations none = 10 ∧
    watchTheme none = "system" :=
  ⟨rfl, rfl, rfl, rfl, rfl⟩

/-- Claim C9: `saveSettings` substitutes the store's current setting for a
falsy `maxGenerations` or `theme` argument, falling back to `10` and
`"system"` when the current value is itself falsy, and never sends a
`max_generations` of `0` to the backend. -/
theorem saveSettings_falsy_fallback (st : StoreState) (newPath : String)
    (mg : Option Int) (th : Option String) :
    ((mg = none ∨ mg = some 0) →
      (saveSettings st newPath mg th).maxGenerations =
        jsNumOr (some st.settings.max_generations) 10) ∧
    ((mg = none ∨ mg = some 0) → st.settings.max_generations = 0 →
      (saveSettings st newPath mg th).maxGenerations = 10) ∧
    ((th = none ∨ th = some "") →
      (saveSettings st newPath mg th).theme =
        jsStrOr (some st.settings.theme) "system") ∧
    ((th = none ∨ th = some "") → st.settings.theme = "" →
      (saveSettings st newPath mg th).theme = "system") ∧
    (saveSettings st newPath mg th).maxGenerations ≠ 0 := by
  refine ⟨?_, ?_, ?_, ?_, ?_⟩
  · rintro (rfl | rfl) <;> simp [saveSettings, jsNumOr]
  · rintro (rfl | rfl) h <;> simp [saveSettings, jsNumOr, h]
  · rintro (rfl | rfl) <;> simp [saveSettings, jsStrOr]
  · rintro (rfl | rfl) h <;> simp [saveSettings, jsStrOr, h]
  · cases mg with
    | none =>
      simp only [saveSettings, jsNumOr]
      split_ifs <;> omega
    | some n =>
      simp only [saveSettings, jsNumOr]
      split_ifs <;> omega

/-- Witness for C9: invoked with `maxGenerations = 0` and an empty theme
on a store whose current values are also falsy, the action sends `10` and
`"system"`, and in particular not `0`. -/
theorem saveSettings_falsy_fallback_witness :
    (saveSettings
        ⟨⟨"", "", 0⟩, [], false⟩ "p" (some 0) (some "")).maxGenerations = 10 ∧
    (saveSettings ⟨⟨"", "", 0⟩, [], false⟩ "p" (some 0) (some "")).theme = "system" ∧
    (saveSettings ⟨⟨"", "", 0⟩, [], false⟩ "p" (some 0) (some "")).maxGenerations ≠ 0 := by
  have h := saveSettings_falsy_fallback ⟨⟨"", "", 0⟩, [], false⟩ "p" (some 0) (some "")
  exact ⟨h.2.1 (Or.inr rfl) rfl, h.2.2.2.1 (Or.inr rfl) rfl, h.2.2.2.2⟩

/-- Claim C10: the list view keeps one shared memo debounce timer — a
memo keystroke in any category re-arms the single timer for that category
1000 ms out, cancelling whatever save was pending for any other category;
a pending save does not run before its deadline; and a non-empty burst of
interleaved edits followed by timer expiry persists exactly the
last-edited category's memo. -/
theorem memo_debounce_shared_timer :
    (∀ (st : MemoTimerState) (f : String) (now : Nat),
      (onMemoInput st f now).pending = some (f, now + 1000)) ∧
    (∀ (st : MemoTimerState) (f : String) (deadline now : Nat),
      st.pending = some (f, deadline) → now < deadline →
      fireMemoTimer st now = (st, none)) ∧
    (∀ (l : List (String × Nat)) (st : MemoTimerState) (f : String) (tf : Nat),
      l.getLast? = some (f, tf) → ∀ T, tf + 1000 ≤ T →
      runMemo st (l.map (fun p => MemoEvent.input p.1 p.2) ++ [MemoEvent.fire T]) =
        ({ pending := none }, [f])) := by
  refine ⟨fun _ _ _ => rfl, ?_, ?_⟩
  · intro st f deadline now hp hlt
    unfold fireMemoTimer
    rw [hp]
    simp [Nat.not_le.mpr hlt]
  · intro l st f tf hlast T hT
    exact runMemo_inputs_fire l st f tf hlast T hT

/-- Witness for C10: an edit in "SaveA" at 0 ms followed by an edit in
"SaveB" at 500 ms and a timer expiry at 1500 ms saves only "SaveB"'s
memo. -/
theorem memo_debounce_shared_timer_witness :
    ([("SaveA", 0), ("SaveB", 500)] : List (String × Nat)).getLast? =
        some ("SaveB", 500) ∧
    runMemo ⟨none⟩
        [MemoEvent.input "SaveA" 0, MemoEvent.input "SaveB" 500,
         MemoEvent.fire 1500] =
      (⟨none⟩, ["SaveB"]) := by
  have h := memo_debounce_shared_timer.2.2 [("SaveA", 0), ("SaveB", 500)] ⟨none⟩
    "SaveB" 500 (by decide) 1500 (by decide)
  exact ⟨by decide, by simpa using h⟩

end RepoSaver
